import Mathlib

/-!
# Verification of the Card Clash (UNO-style) game engine

Shallow embedding of the authoritative game-state machine of the repository:
deck construction (`src/services/gameLogic.ts`), move legality, bot color
choice, and the host-side state machine and action router
(`src/App.tsx`, duplicated in the HTTP-relay variant `src/unnamed/part_001`).

Modeling conventions:
 * TypeScript `Card`, `Player`, `GameState` objects become Lean structures.
   The `types.ts` module itself is not in the sources, but every field is
   fully determined by its uses in `src/App.tsx` and `src/services/*`.
 * `Math.random()`-driven shuffling is made deterministic by threading an
   explicit seed `seed : Nat → Nat`; step `i` of the Fisher-Yates loop uses
   `seed i % (i+1)` as the random index, exactly covering every possible
   run of the source loop.
 * React state updates: inside one synchronous handler the source calls
   `setGameState` several times.  Functional updates (`setGameState(prev => ...)`)
   are queued and applied in order, so they compose sequentially; a direct
   value update (`setGameState(winState)`) replaces the whole state.
   `stateRef.current` is only reassigned on render, so every read of it
   inside one handler sees the state as of handler entry.  The embedding
   therefore passes the entry state `s0` explicitly for `stateRef.current`
   reads and composes the queued updates in program order.
 * Chat side effects are modeled as an explicit `List String` log where a
   claim needs them (the UNO call); external bot-chat generation
   (`geminiService`) is outside the core and not modeled.
-/

/-- Card colors: the four chromatic colors plus the neutral wild color
`'black'` (`CardColor` in the sources). -/
inductive Color where
  | red | blue | green | yellow | black
deriving DecidableEq, Repr

/-- Card kinds (`CardType` in the sources): numerals, the three colored
actions, and the two wild-family kinds. -/
inductive CType where
  | number | skip | reverse | draw2 | wild | wild4
deriving DecidableEq, Repr

/-- A card (`Card` interface): unique id, color, kind, optional numeral
value, point value. -/
structure Card where
  id : String
  type : CType
  color : Color
  value : Option Nat
  points : Nat
deriving DecidableEq, Repr

/-- A seated player (`Player` interface). -/
structure Player where
  id : String
  name : String
  avatar : String
  isBot : Bool
  hand : List Card
  isUno : Bool
  isHost : Bool
deriving DecidableEq, Repr

/-- Match lifecycle status (`GameStatus` enum). -/
inductive GameStatus where
  | lobby | playing | gameOver
deriving DecidableEq, Repr

/-- The root aggregate (`GameState` interface), exactly the fields
initialized in `src/App.tsx`. The direction is the integer `1` or `-1`. -/
structure GameState where
  status : GameStatus
  players : List Player
  currentPlayerIndex : Nat
  direction : Int
  drawPile : List Card
  discardPile : List Card
  currentColor : Color
  winner : Option Player
  turnCount : Nat
deriving DecidableEq, Repr

/-- Player-submitted intents (`PlayerAction.actionType`). -/
inductive ActionType where
  | PLAY_CARD | DRAW_CARD | CALL_UNO
deriving DecidableEq, Repr

/-- A submitted action (`PlayerAction` interface). -/
structure PlayerAction where
  actionType : ActionType
  cardId : Option String
  wildColor : Option Color
  playerId : String
deriving DecidableEq, Repr

/-- Constant `COLORS` from `src/unnamed/part_002` (constants module). -/
def COLORS : List Color := [Color.red, Color.blue, Color.green, Color.yellow]

/-- Constant `BOT_NAMES` from the constants module. -/
def BOT_NAMES : List String :=
  ["NeonByte", "CyberGlitch", "PixelPaws", "DataDrifter",
   "NetSurfer", "CodeNinja", "WifiWarrior", "ByteBandit",
   "GlitchGhost", "AlgoRhythm"]

/-- Constant `AVATARS` from the constants module (20 entries; the exact emoji are
irrelevant to the engine, only the length matters for index wrap-around). -/
def AVATARS : List String :=
  ["a01", "a02", "a03", "a04", "a05", "a06", "a07", "a08", "a09", "a10",
   "a11", "a12", "a13", "a14", "a15", "a16", "a17", "a18", "a19", "a20"]

namespace POINTS

/-- Constant `POINTS.NUMBER`. -/
def NUMBER : Nat := 5

/-- Constant `POINTS.ACTION`. -/
def ACTION : Nat := 20

/-- Constant `POINTS.WILD`. -/
def WILD : Nat := 50

end POINTS

/-! ## Deck Engine (`src/services/gameLogic.ts`) -/

/-- The `addCard` helper of `createDeck`: cards are tagged
`card-<counter>`. -/
def mkCard (idCounter : Nat) (color : Color) (type : CType)
    (value : Option Nat) (points : Nat) : Card :=
  { id := "card-" ++ toString idCounter, type := type, color := color,
    value := value, points := points }

/-- The two copies of each of 1..9 pushed by the inner `for` loop of
`createDeck`, in push order `1,1,2,2,...,9,9`.  `idBase` is the id counter
value when the loop starts. -/
def numeralPairs (idBase : Nat) (color : Color) : List Card :=
  (List.range 9).flatMap fun i =>
    [mkCard (idBase + 2 * i) color CType.number (some (i + 1)) POINTS.NUMBER,
     mkCard (idBase + 2 * i + 1) color CType.number (some (i + 1)) POINTS.NUMBER]

/-- The 25 cards one `COLORS.forEach` iteration of `createDeck` pushes:
one 0, two each of 1-9, two each of skip/reverse/draw2. -/
def colorBlock (idBase : Nat) (color : Color) : List Card :=
  mkCard idBase color CType.number (some 0) POINTS.NUMBER ::
  numeralPairs (idBase + 1) color ++
  [mkCard (idBase + 19) color CType.skip none POINTS.ACTION,
   mkCard (idBase + 20) color CType.skip none POINTS.ACTION,
   mkCard (idBase + 21) color CType.reverse none POINTS.ACTION,
   mkCard (idBase + 22) color CType.reverse none POINTS.ACTION,
   mkCard (idBase + 23) color CType.draw2 none POINTS.ACTION,
   mkCard (idBase + 24) color CType.draw2 none POINTS.ACTION]

/-- The wild block of `createDeck`: the final loop pushes `wild, wild4`
four times, all in the neutral color. -/
def wildBlock (idBase : Nat) : List Card :=
  (List.range 4).flatMap fun i =>
    [mkCard (idBase + 2 * i) Color.black CType.wild none POINTS.WILD,
     mkCard (idBase + 2 * i + 1) Color.black CType.wild4 none POINTS.WILD]

/-- The deck `createDeck` builds before its final shuffle, in push order. -/
def baseDeck : List Card :=
  colorBlock 0 Color.red ++ colorBlock 25 Color.blue ++
  colorBlock 50 Color.green ++ colorBlock 75 Color.yellow ++
  wildBlock 100

/-- One swap `[a[i], a[j]] = [a[j], a[i]]` of the Fisher-Yates loop;
out-of-range indices (never hit by the source loop) leave the list as is. -/
def swapL (l : List Card) (i j : Nat) : List Card :=
  match l.get? i, l.get? j with
  | some a, some b => (l.set i b).set j a
  | _, _ => l

/-- The Fisher-Yates loop of `shuffleDeck`, counting the loop variable
down from `i` to `1`; at counter value `k` the random index is
`seed k % (k+1)`, ranging over `0..k` exactly as
`Math.floor(Math.random() * (i + 1))` does. -/
def fyLoop (seed : Nat → Nat) : Nat → List Card → List Card
  | 0, l => l
  | Nat.succ k, l => fyLoop seed k (swapL l (k + 1) (seed (k + 1) % (k + 2)))

/-- Function `shuffleDeck`: Fisher-Yates on a copy of the input. -/
def shuffleDeck (seed : Nat → Nat) (deck : List Card) : List Card :=
  fyLoop seed (deck.length - 1) deck

/-- Function `createDeck`: builds the 108-card deck and shuffles it. -/
def createDeck (seed : Nat → Nat) : List Card :=
  shuffleDeck seed baseDeck

/-! ## Rule Engine (`isCardValid`) -/

/-- Function `isCardValid(card, topCard, activeColor)` from `src/services/gameLogic.ts`. -/
def isCardValid (card topCard : Card) (activeColor : Color) : Bool :=
  -- Wilds are always valid
  if card.color = Color.black then true
  -- Match Color (active color takes precedence for previously played wilds)
  else if card.color = activeColor then true
  -- Match Value (Numbers)
  else if card.type = CType.number ∧ topCard.type = CType.number ∧
          card.value = topCard.value then true
  -- Match Symbol (Action cards)
  else if card.type ≠ CType.number ∧ card.type = topCard.type then true
  else false

/-! ## Bot color choice (`pickBestColor`) -/

/-- The per-color tally of `pickBestColor`: each non-black card increments
the counter of its own color. -/
def colorCount (hand : List Card) (c : Color) : Nat :=
  (hand.filter fun k => k.color ≠ Color.black ∧ k.color = c).length

/-- Function `pickBestColor(hand)`: `Object.keys(counts)` enumerates the insertion
order `red, blue, green, yellow`; `reduce((a, b) => counts[a] > counts[b] ? a : b)`
starts from the first key. -/
def pickBestColor (hand : List Card) : Color :=
  [Color.blue, Color.green, Color.yellow].foldl
    (fun a b => if colorCount hand a > colorCount hand b then a else b)
    Color.red

/-! ## Game State Machine (`src/App.tsx`, also `src/unnamed/part_001`) -/

/-- Function `getNextPlayerIndex(current, direction, numPlayers)`:
`(current + direction + numPlayers) % numPlayers`.  The dividend is
nonnegative in every source call (`direction` is `1` or `-1`), where the
JavaScript `%` agrees with the euclidean `%` used here. -/
def getNextPlayerIndex (current : Nat) (direction : Int) (numPlayers : Nat) : Nat :=
  (((current : Int) + direction + (numPlayers : Int)) % (numPlayers : Int)).toNat

/-- Assignment `newPlayers[playerIndex] = f({...newPlayers[playerIndex]})` on a copied
list: update the element at an index, identity when out of range. -/
def updateAt : List Player → Nat → (Player → Player) → List Player
  | [], _, _ => []
  | p :: ps, 0, f => f p :: ps
  | p :: ps, Nat.succ n, f => p :: updateAt ps n f

/-- The tail of `performDraw` after any reclaim: `splice(0, count)` off the
draw pile front, appended to the player's hand, clearing the UNO flag. -/
def drawFrom (s : GameState) (playerIndex count : Nat) : GameState :=
  { s with
    drawPile := s.drawPile.drop count,
    players := updateAt s.players playerIndex fun p =>
      { p with hand := p.hand ++ s.drawPile.take count, isUno := false } }

/-- Function `performDraw(playerIndex, count)`: if the draw pile underflows and the
discard pile is non-empty, pop the discard top, shuffle the remainder and
`unshift` it onto the draw pile, keep the top as the sole discard; if the
discard pile is also empty, return the state unchanged. -/
def performDraw (seed : Nat → Nat) (s : GameState) (playerIndex count : Nat) :
    GameState :=
  if s.drawPile.length < count then
    if hne : s.discardPile = [] then s
    else
      drawFrom
        { s with
          drawPile := shuffleDeck seed s.discardPile.dropLast ++ s.drawPile,
          discardPile := [s.discardPile.getLast hne] }
        playerIndex count
  else drawFrom s playerIndex count

/-- Function `passTurn(currentIndex)`: one step in the current direction, bumping
the turn counter. -/
def passTurn (s : GameState) (currentIndex : Nat) : GameState :=
  { s with
    currentPlayerIndex :=
      getNextPlayerIndex currentIndex s.direction s.players.length,
    turnCount := s.turnCount + 1 }

/-- The first `setGameState` of `performPlayCard`: remove the card from the
acting player's hand, push it on the discard pile, set the active color. -/
def playCardUpdate (s : GameState) (playerIndex : Nat) (card : Card)
    (colorToSet : Color) : GameState :=
  { s with
    players := updateAt s.players playerIndex fun p =>
      { p with hand := p.hand.filter fun c => c.id != card.id },
    discardPile := s.discardPile ++ [card],
    currentColor := colorToSet }

/-- The final `setGameState` of `performPlayCard`: advance one step in
direction `nd`, twice when a bypass (`skipTurn`) is in effect. -/
def advanceTurn (s : GameState) (playerIndex : Nat) (nd : Int)
    (skipTurn : Bool) : GameState :=
  { s with
    currentPlayerIndex :=
      if skipTurn then
        getNextPlayerIndex (getNextPlayerIndex playerIndex nd s.players.length)
          nd s.players.length
      else getNextPlayerIndex playerIndex nd s.players.length,
    turnCount := s.turnCount + 1 }

/-- Function `performPlayCard(playerIndex, card, selectedWildColor)`.  `s0` is the
state at handler entry (every `stateRef.current` read).  The win branch
replaces the whole state with `{...stateRef.current, status, winner}`
computed from the entry snapshot, exactly as the source's direct-value
`setGameState(winState)` does. -/
def performPlayCard (seed : Nat → Nat) (s0 : GameState) (playerIndex : Nat)
    (card : Card) (selectedWildColor : Option Color) : GameState :=
  let colorToSet : Color :=
    match selectedWildColor with
    | some c => if card.color = Color.black then c else card.color
    | none => card.color
  let s1 := playCardUpdate s0 playerIndex card colorToSet
  match s0.players.get? playerIndex with
  | none => s1
  | some player =>
    if player.hand.length = 1 then
      { s0 with status := GameStatus.gameOver,
                winner := some { player with hand := [] } }
    else
      match card.type with
      | CType.reverse =>
          advanceTurn { s1 with direction := -s0.direction } playerIndex
            (-s0.direction) (s0.players.length == 2)
      | CType.skip => advanceTurn s1 playerIndex s0.direction true
      | CType.draw2 =>
          advanceTurn
            (performDraw seed s1
              (getNextPlayerIndex playerIndex s0.direction s0.players.length) 2)
            playerIndex s0.direction true
      | CType.wild4 =>
          advanceTurn
            (performDraw seed s1
              (getNextPlayerIndex playerIndex s0.direction s0.players.length) 4)
            playerIndex s0.direction true
      | _ => advanceTurn s1 playerIndex s0.direction false

/-- The system chat line emitted for a processed UNO call. -/
def unoMessage (s : GameState) (playerIdx : Nat) : String :=
  (match s.players.get? playerIdx with
   | some p => p.name
   | none => "") ++ " gritou UNO!"

namespace AppTsx

/-- Router `handleRemoteAction` of the PeerJS variant (`src/App.tsx`): any action
from an unknown player or from a player other than the current turn holder
is dropped, with no exemption for `CALL_UNO`.  Returns the new state and
the system-chat log. -/
def handleRemoteAction (seed : Nat → Nat) (s : GameState) (chat : List String)
    (action : PlayerAction) : GameState × List String :=
  match s.players.findIdx? (fun p => p.id = action.playerId) with
  | none => (s, chat)
  | some playerIdx =>
    if playerIdx ≠ s.currentPlayerIndex then (s, chat)
    else
      match action.actionType with
      | ActionType.DRAW_CARD =>
          (passTurn (performDraw seed s playerIdx 1) playerIdx, chat)
      | ActionType.PLAY_CARD =>
          match action.cardId with
          | none => (s, chat)
          | some cid =>
            match (s.players.get? playerIdx).bind
                (fun p => p.hand.find? fun c => c.id = cid) with
            | none => (s, chat)
            | some card =>
                (performPlayCard seed s playerIdx card action.wildColor, chat)
      | ActionType.CALL_UNO => (s, chat ++ [unoMessage s playerIdx])

end AppTsx

namespace Part001

/-- Router `handleRemoteAction` of the HTTP-relay variant (`src/unnamed/part_001`):
identical to the PeerJS variant except that the turn check exempts
`CALL_UNO` (`playerIdx !== currentPlayerIndex && actionType !== 'CALL_UNO'`). -/
def handleRemoteAction (seed : Nat → Nat) (s : GameState) (chat : List String)
    (action : PlayerAction) : GameState × List String :=
  match s.players.findIdx? (fun p => p.id = action.playerId) with
  | none => (s, chat)
  | some playerIdx =>
    if playerIdx ≠ s.currentPlayerIndex ∧ action.actionType ≠ ActionType.CALL_UNO
    then (s, chat)
    else
      match action.actionType with
      | ActionType.DRAW_CARD =>
          (passTurn (performDraw seed s playerIdx 1) playerIdx, chat)
      | ActionType.PLAY_CARD =>
          match action.cardId with
          | none => (s, chat)
          | some cid =>
            match (s.players.get? playerIdx).bind
                (fun p => p.hand.find? fun c => c.id = cid) with
            | none => (s, chat)
            | some card =>
                (performPlayCard seed s playerIdx card action.wildColor, chat)
      | ActionType.CALL_UNO => (s, chat ++ [unoMessage s playerIdx])

end Part001

/-! ## Match start (`startGameHost` in `src/App.tsx`) -/

/-- A connected-peers entry as `startGameHost` consumes it: identity, name
and whether it has a live connection (`conn !== null`; the host's own
entry has `conn: null`). -/
structure PeerInfo where
  id : String
  name : String
  hasConn : Bool
deriving DecidableEq, Repr

/-- The three table modes of the lobby UI. -/
inductive GameMode where
  | m1v1 | m1v3 | m1v4
deriving DecidableEq, Repr

/-- Seat count `totalSlots`: 4 by default, 2 for `1v1`, 5 for `1v4`. -/
def totalSlots : GameMode → Nat
  | GameMode.m1v1 => 2
  | GameMode.m1v3 => 4
  | GameMode.m1v4 => 5

/-- Placeholder card for the (unreachable under the stated hypotheses)
`deck.shift()!` on an exhausted deck. -/
def dummyCard : Card :=
  { id := "", type := CType.number, color := Color.red, value := some 0,
    points := 0 }

/-- The `realClients.forEach` loop of `startGameHost`: deal 7 cards off the
deck front to each connected client, in join order.  Returns the client
players and the remaining deck.  `i` is the forEach index (avatars only). -/
def dealClients : List Card → Nat → List PeerInfo → List Player × List Card
  | deck, _, [] => ([], deck)
  | deck, i, c :: cs =>
      let pl : Player :=
        { id := c.id, name := c.name,
          avatar := AVATARS.getD ((i + 1) % AVATARS.length) "",
          isBot := false, hand := deck.take 7, isUno := false, isHost := false }
      let rest := dealClients (deck.drop 7) (i + 1) cs
      (pl :: rest.1, rest.2)

/-- The bot-filling loop of `startGameHost`: `neededBots` synthetic players
`bot-i`, 7 cards each.  `base` is the human count (avatar index only). -/
def dealBots : List Card → Nat → Nat → Nat → List Player × List Card
  | deck, _, _, 0 => ([], deck)
  | deck, base, i, Nat.succ n =>
      let pl : Player :=
        { id := "bot-" ++ toString i,
          name := BOT_NAMES.getD (i % BOT_NAMES.length) "",
          avatar := AVATARS.getD (base + i) "",
          isBot := true, hand := deck.take 7, isUno := false, isHost := false }
      let rest := dealBots (deck.drop 7) base (i + 1) n
      (pl :: rest.1, rest.2)

/-- Function `startGameHost(mode)`: fresh shuffled deck, host player first, then the
connected clients, then bots up to the mode's seat count; one card flipped
to start the discard pile (a black flip resolves the active color to red);
turn index 0, direction +1, status playing, turn counter 1. -/
def startGameHost (seed : Nat → Nat) (myPlayerId playerName : String)
    (peers : List PeerInfo) (mode : GameMode) : GameState :=
  let deck0 := createDeck seed
  let hostId : String :=
    if myPlayerId = "" then
      match peers.find? (fun p => !p.hasConn) with
      | some p => p.id
      | none => "host"
    else myPlayerId
  let hostPlayer : Player :=
    { id := hostId, name := playerName, avatar := AVATARS.getD 0 "",
      isBot := false, hand := deck0.take 7, isUno := false, isHost := true }
  let dealt := dealClients (deck0.drop 7) 0 (peers.filter fun p => p.hasConn)
  let players1 := hostPlayer :: dealt.1
  let botsDealt := dealBots dealt.2 players1.length 0
    (totalSlots mode - players1.length)
  let players := players1 ++ botsDealt.1
  let firstCard := botsDealt.2.headD dummyCard
  let initialColor :=
    if firstCard.color = Color.black then Color.red else firstCard.color
  { status := GameStatus.playing, players := players,
    currentPlayerIndex := 0, direction := 1,
    drawPile := botsDealt.2.tail, discardPile := [firstCard],
    currentColor := initialColor, winner := none, turnCount := 1 }

/-! ## Permutation facts about the Fisher-Yates shuffle -/

/-- Putting an element back over the slot it was read from is a
permutation: `xs[k] :: xs.set k x` is `x :: xs` reordered. -/
theorem cons_set_perm : ∀ (xs : List Card) (k : Nat) (b x : Card),
    xs[k]? = some b → (b :: xs.set k x).Perm (x :: xs)
  | [], k, b, x, h => by simp at h
  | y :: ys, 0, b, x, h => by
      simp only [List.getElem?_cons_zero, Option.some.injEq] at h
      subst h
      exact List.Perm.swap x y ys
  | y :: ys, Nat.succ k, b, x, h => by
      simp only [List.getElem?_cons_succ] at h
      show (b :: y :: ys.set k x).Perm (x :: y :: ys)
      have h1 : (b :: y :: ys.set k x).Perm (y :: b :: ys.set k x) :=
        List.Perm.swap y b _
      have h2 : (y :: b :: ys.set k x).Perm (y :: x :: ys) :=
        (cons_set_perm ys k b x h).cons y
      have h3 : (y :: x :: ys).Perm (x :: y :: ys) := List.Perm.swap x y ys
      exact (h1.trans h2).trans h3

/-- A two-slot exchange is a permutation. -/
theorem set_set_perm : ∀ (l : List Card) (i j : Nat) (a b : Card),
    l[i]? = some a → l[j]? = some b → ((l.set i b).set j a).Perm l
  | [], _, _, _, _, hi, _ => by simp at hi
  | x :: xs, 0, 0, a, b, hi, hj => by
      simp only [List.getElem?_cons_zero, Option.some.injEq] at hi hj
      subst hi; subst hj
      simp
  | x :: xs, 0, Nat.succ j, a, b, hi, hj => by
      simp only [List.getElem?_cons_zero, Option.some.injEq] at hi
      simp only [List.getElem?_cons_succ] at hj
      subst hi
      exact cons_set_perm xs j b x hj
  | x :: xs, Nat.succ i, 0, a, b, hi, hj => by
      simp only [List.getElem?_cons_zero, Option.some.injEq] at hj
      simp only [List.getElem?_cons_succ] at hi
      subst hj
      exact cons_set_perm xs i a x hi
  | x :: xs, Nat.succ i, Nat.succ j, a, b, hi, hj => by
      simp only [List.getElem?_cons_succ] at hi hj
      exact ((set_set_perm xs i j a b hi hj).cons x)

/-- One Fisher-Yates swap is a permutation. -/
theorem swapL_perm (l : List Card) (i j : Nat) : (swapL l i j).Perm l := by
  rcases hi : l[i]? with _ | a
  · simp [swapL, hi]
  · rcases hj : l[j]? with _ | b
    · simp [swapL, hi, hj]
    · simpa [swapL, hi, hj] using set_set_perm l i j a b hi hj

/-- The whole Fisher-Yates loop is a permutation. -/
theorem fyLoop_perm (seed : Nat → Nat) :
    ∀ (k : Nat) (l : List Card), (fyLoop seed k l).Perm l
  | 0, l => List.Perm.refl l
  | Nat.succ k, l =>
      (fyLoop_perm seed k _).trans (swapL_perm l (k + 1) (seed (k + 1) % (k + 2)))

/-- Shuffling returns a permutation of the input: `shuffleDeck` facts. -/
theorem shuffleDeck_perm (seed : Nat → Nat) (l : List Card) :
    (shuffleDeck seed l).Perm l :=
  fyLoop_perm seed (l.length - 1) l

/-- Shuffling preserves length. -/
theorem shuffleDeck_length (seed : Nat → Nat) (l : List Card) :
    (shuffleDeck seed l).length = l.length :=
  (shuffleDeck_perm seed l).length_eq

/-- Any generated deck is a permutation of `baseDeck`. -/
theorem createDeck_perm (seed : Nat → Nat) : (createDeck seed).Perm baseDeck :=
  shuffleDeck_perm seed baseDeck

/-- C7: every generated deck has exactly 108 cards: per chromatic color one
0, two each of 1-9 and two each of skip/reverse/draw-two; 4 wild and 4
wild-draw-four cards in the neutral color; numeral cards carry the numeral
point value, action cards the action point value, wild-family cards the
wild point value. -/
theorem createDeck_composition (seed : Nat → Nat) :
    (createDeck seed).length = 108 ∧
    (∀ c ∈ COLORS,
      ((createDeck seed).countP fun k =>
        decide (k.color = c ∧ k.type = CType.number ∧ k.value = some 0)) = 1 ∧
      (∀ v : Nat, v < 9 →
        ((createDeck seed).countP fun k =>
          decide (k.color = c ∧ k.type = CType.number ∧ k.value = some (v + 1))) = 2) ∧
      ((createDeck seed).countP fun k =>
        decide (k.color = c ∧ k.type = CType.skip)) = 2 ∧
      ((createDeck seed).countP fun k =>
        decide (k.color = c ∧ k.type = CType.reverse)) = 2 ∧
      ((createDeck seed).countP fun k =>
        decide (k.color = c ∧ k.type = CType.draw2)) = 2) ∧
    ((createDeck seed).countP fun k =>
      decide (k.color = Color.black ∧ k.type = CType.wild)) = 4 ∧
    ((createDeck seed).countP fun k =>
      decide (k.color = Color.black ∧ k.type = CType.wild4)) = 4 ∧
    (∀ k ∈ createDeck seed,
      (k.type = CType.number → k.points = POINTS.NUMBER) ∧
      ((k.type = CType.skip ∨ k.type = CType.reverse ∨ k.type = CType.draw2) →
        k.points = POINTS.ACTION) ∧
      ((k.type = CType.wild ∨ k.type = CType.wild4) → k.points = POINTS.WILD)) := by
  have hp := createDeck_perm seed
  have hmem : ∀ k ∈ baseDeck,
      (k.type = CType.number → k.points = POINTS.NUMBER) ∧
      ((k.type = CType.skip ∨ k.type = CType.reverse ∨ k.type = CType.draw2) →
        k.points = POINTS.ACTION) ∧
      ((k.type = CType.wild ∨ k.type = CType.wild4) → k.points = POINTS.WILD) := by
    decide
  refine ⟨hp.length_eq.trans (by decide), ?_, ?_, ?_, ?_⟩
  · intro c hc
    simp only [COLORS, List.mem_cons, List.not_mem_nil, or_false] at hc
    rcases hc with rfl | rfl | rfl | rfl <;>
      refine ⟨(hp.countP_eq _).trans (by decide), fun v hv => ?_,
        (hp.countP_eq _).trans (by decide), (hp.countP_eq _).trans (by decide),
        (hp.countP_eq _).trans (by decide)⟩ <;>
      · rw [hp.countP_eq]
        revert v hv
        decide
  · exact (hp.countP_eq _).trans (by decide)
  · exact (hp.countP_eq _).trans (by decide)
  · exact fun k hk => hmem k (hp.subset hk)

/-- C8: a card with the neutral color is always legal; otherwise a play is
legal exactly when the colors match, or both are equal numerals, or both
are the same non-numeral kind; in particular a card is always legal on
itself. -/
theorem isCardValid_spec (card topCard : Card) (activeColor : Color) :
    (card.color = Color.black → isCardValid card topCard activeColor = true) ∧
    (isCardValid card topCard activeColor = true ↔
      (card.color = Color.black ∨ card.color = activeColor ∨
       (card.type = CType.number ∧ topCard.type = CType.number ∧
        card.value = topCard.value) ∨
       (card.type ≠ CType.number ∧ card.type = topCard.type))) ∧
    isCardValid card card activeColor = true := by
  refine ⟨fun h => by simp [isCardValid, h], ?_, ?_⟩
  · unfold isCardValid
    split_ifs with h1 h2 h3 h4
    · simpa using Or.inl h1
    · simpa using Or.inr (Or.inl h2)
    · simpa using Or.inr (Or.inr (Or.inl h3))
    · simpa using Or.inr (Or.inr (Or.inr h4))
    · simp only [Bool.false_eq_true, false_iff]
      intro h
      rcases h with h | h | h | h
      · exact h1 h
      · exact h2 h
      · exact h3 h
      · exact h4 h
  · unfold isCardValid
    split_ifs with h1 h2 h3 h4 <;> try rfl
    exfalso
    by_cases hn : card.type = CType.number
    · exact h3 ⟨hn, hn, rfl⟩
    · exact h4 ⟨hn, rfl⟩

/-! ## Bot color choice facts -/

/-- A hand of only neutral cards contributes nothing to any tally. -/
theorem colorCount_eq_zero (hand : List Card)
    (h : ∀ k ∈ hand, k.color = Color.black) (c : Color) :
    colorCount hand c = 0 := by
  unfold colorCount
  rw [List.length_eq_zero, List.filter_eq_nil_iff]
  intro a ha
  simp [h a ha]

/-- C10: `pickBestColor` always returns a chromatic color whose tally of
non-wild cards is maximal, breaking ties towards the color occurring last
in the fixed order red, blue, green, yellow; an empty or all-wild hand
yields yellow. -/
theorem pickBestColor_spec (hand : List Card) :
    pickBestColor hand ≠ Color.black ∧
    pickBestColor hand ∈ COLORS ∧
    (∀ c ∈ COLORS, colorCount hand c ≤ colorCount hand (pickBestColor hand)) ∧
    (∀ c ∈ COLORS, colorCount hand c = colorCount hand (pickBestColor hand) →
      COLORS.indexOf c ≤ COLORS.indexOf (pickBestColor hand)) ∧
    ((∀ k ∈ hand, k.color = Color.black) → pickBestColor hand = Color.yellow) := by
  refine ⟨?_, ?_, ?_, ?_, ?_⟩
  · unfold pickBestColor
    simp only [List.foldl_cons, List.foldl_nil]
    split_ifs <;> decide
  · unfold pickBestColor
    simp only [List.foldl_cons, List.foldl_nil]
    split_ifs <;> decide
  · intro c hc
    simp only [COLORS, List.mem_cons, List.not_mem_nil, or_false] at hc
    unfold pickBestColor
    simp only [List.foldl_cons, List.foldl_nil]
    rcases hc with rfl | rfl | rfl | rfl <;> split_ifs <;> omega
  · intro c hc
    simp only [COLORS, List.mem_cons, List.not_mem_nil, or_false] at hc
    unfold pickBestColor
    simp only [List.foldl_cons, List.foldl_nil]
    rcases hc with rfl | rfl | rfl | rfl <;> split_ifs <;> intro heq <;>
      first
        | decide
        | exact absurd heq (by omega)
  · intro hall
    have hz : ∀ c : Color, colorCount hand c = 0 := colorCount_eq_zero hand hall
    unfold pickBestColor
    simp only [List.foldl_cons, List.foldl_nil]
    split_ifs <;>
      first
        | rfl
        | (simp_all only [hz]; try omega)

/-- Witness for `pickBestColor_spec` at the empty hand. -/
theorem pickBestColor_spec_witness :
    pickBestColor [] = Color.yellow ∧
    colorCount [] Color.red ≤ colorCount [] (pickBestColor []) :=
  ⟨(pickBestColor_spec []).2.2.2.2 (by intro k hk; exact absurd hk (List.not_mem_nil k)),
   (pickBestColor_spec []).2.2.1 Color.red (by decide)⟩

/-! ## Small facts about the state-machine building blocks -/

/-- Updating one seat with `updateAt` preserves the roster length. -/
@[simp] theorem updateAt_length :
    ∀ (l : List Player) (i : Nat) (f : Player → Player),
      (updateAt l i f).length = l.length
  | [], _, _ => rfl
  | _ :: _, 0, _ => rfl
  | _ :: ps, Nat.succ n, f => congrArg Nat.succ (updateAt_length ps n f)

@[simp] theorem advanceTurn_status (s : GameState) (i : Nat) (nd : Int) (b : Bool) :
    (advanceTurn s i nd b).status = s.status := rfl

@[simp] theorem advanceTurn_direction (s : GameState) (i : Nat) (nd : Int) (b : Bool) :
    (advanceTurn s i nd b).direction = s.direction := rfl

@[simp] theorem advanceTurn_currentColor (s : GameState) (i : Nat) (nd : Int) (b : Bool) :
    (advanceTurn s i nd b).currentColor = s.currentColor := rfl

@[simp] theorem advanceTurn_players (s : GameState) (i : Nat) (nd : Int) (b : Bool) :
    (advanceTurn s i nd b).players = s.players := rfl

theorem advanceTurn_currentPlayerIndex (s : GameState) (i : Nat) (nd : Int) (b : Bool) :
    (advanceTurn s i nd b).currentPlayerIndex =
      if b then
        getNextPlayerIndex (getNextPlayerIndex i nd s.players.length) nd
          s.players.length
      else getNextPlayerIndex i nd s.players.length := rfl

@[simp] theorem playCardUpdate_status (s : GameState) (i : Nat) (card : Card) (c : Color) :
    (playCardUpdate s i card c).status = s.status := rfl

@[simp] theorem playCardUpdate_direction (s : GameState) (i : Nat) (card : Card) (c : Color) :
    (playCardUpdate s i card c).direction = s.direction := rfl

@[simp] theorem playCardUpdate_currentColor (s : GameState) (i : Nat) (card : Card) (c : Color) :
    (playCardUpdate s i card c).currentColor = c := rfl

@[simp] theorem playCardUpdate_players_length (s : GameState) (i : Nat) (card : Card) (c : Color) :
    (playCardUpdate s i card c).players.length = s.players.length := by
  simp [playCardUpdate]

@[simp] theorem drawFrom_status (s : GameState) (i k : Nat) :
    (drawFrom s i k).status = s.status := rfl

@[simp] theorem drawFrom_currentColor (s : GameState) (i k : Nat) :
    (drawFrom s i k).currentColor = s.currentColor := rfl

@[simp] theorem drawFrom_direction (s : GameState) (i k : Nat) :
    (drawFrom s i k).direction = s.direction := rfl

@[simp] theorem drawFrom_players_length (s : GameState) (i k : Nat) :
    (drawFrom s i k).players.length = s.players.length := by
  simp [drawFrom]

@[simp] theorem performDraw_status (seed : Nat → Nat) (s : GameState) (i k : Nat) :
    (performDraw seed s i k).status = s.status := by
  unfold performDraw
  split_ifs <;> simp

@[simp] theorem performDraw_currentColor (seed : Nat → Nat) (s : GameState) (i k : Nat) :
    (performDraw seed s i k).currentColor = s.currentColor := by
  unfold performDraw
  split_ifs <;> simp

@[simp] theorem performDraw_direction (seed : Nat → Nat) (s : GameState) (i k : Nat) :
    (performDraw seed s i k).direction = s.direction := by
  unfold performDraw
  split_ifs <;> simp

@[simp] theorem performDraw_players_length (seed : Nat → Nat) (s : GameState) (i k : Nat) :
    (performDraw seed s i k).players.length = s.players.length := by
  unfold performDraw
  split_ifs <;> simp

/-- A double advance in a two-seat table returns to the acting seat, for
either direction. -/
theorem getNext_twice_two (i : Nat) (d : Int) (hi : i < 2)
    (hd : d = 1 ∨ d = -1) :
    getNextPlayerIndex (getNextPlayerIndex i d 2) d 2 = i := by
  rcases hd with rfl | rfl <;> interval_cases i <;> decide

/-! ## Concrete fixtures for witnesses and counterexamples -/

/-- A red 5 used in concrete scenarios. -/
def cardRed5 : Card :=
  { id := "k-red5", type := CType.number, color := Color.red, value := some 5,
    points := 5 }

/-- A blue 3 used in concrete scenarios. -/
def cardBlue3 : Card :=
  { id := "k-blue3", type := CType.number, color := Color.blue,
    value := some 3, points := 5 }

/-- A red skip used in concrete scenarios. -/
def cardRedSkip : Card :=
  { id := "k-redskip", type := CType.skip, color := Color.red, value := none,
    points := 20 }

/-- A red reverse used in concrete scenarios. -/
def cardRedRev : Card :=
  { id := "k-redrev", type := CType.reverse, color := Color.red, value := none,
    points := 20 }

/-- A wild card used in concrete scenarios. -/
def cardWildA : Card :=
  { id := "k-wild", type := CType.wild, color := Color.black, value := none,
    points := 50 }

/-- Seat 0 of the concrete win scenario: one card left. -/
def winnerPlayer : Player :=
  { id := "p0", name := "Ana", avatar := "", isBot := false,
    hand := [cardRedSkip], isUno := false, isHost := true }

/-- Seat 1 of the concrete scenarios. -/
def seatOnePlayer : Player :=
  { id := "p1", name := "Bia", avatar := "", isBot := true,
    hand := [cardRed5, cardBlue3], isUno := false, isHost := false }

/-- A two-seat playing state about to be won by seat 0. -/
def winSampleState : GameState :=
  { status := GameStatus.playing, players := [winnerPlayer, seatOnePlayer],
    currentPlayerIndex := 0, direction := 1, drawPile := [cardWildA],
    discardPile := [cardBlue3], currentColor := Color.blue, winner := none,
    turnCount := 5 }

/-- C1: a play-card that empties the acting player's hand (the hand held
exactly the played card) immediately ends the match: status becomes
game-over and the player, with emptied hand, is recorded as winner, while
every other field - turn pointer, direction, piles, rosters, turn counter -
is untouched: no turn advancement, direction flip, bypass or forced draw
happens, whatever the kind of the winning card. -/
theorem performPlayCard_win (seed : Nat → Nat) (s : GameState)
    (playerIndex : Nat) (card : Card) (w : Option Color) (p : Player)
    (hstatus : s.status = GameStatus.playing)
    (hp : s.players.get? playerIndex = some p)
    (hhand : p.hand = [card]) :
    performPlayCard seed s playerIndex card w =
      { s with status := GameStatus.gameOver,
               winner := some { p with hand := [] } } := by
  unfold performPlayCard
  rw [hp]
  simp [hhand]

/-- Witness for `performPlayCard_win`: seat 0 plays its last card (a skip,
whose bypass effect is indeed not applied). -/
theorem performPlayCard_win_witness :
    performPlayCard (fun _ => 0) winSampleState 0 cardRedSkip none =
      { winSampleState with status := GameStatus.gameOver,
                            winner := some { winnerPlayer with hand := [] } } :=
  performPlayCard_win (fun _ => 0) winSampleState 0 cardRedSkip none
    winnerPlayer rfl rfl rfl

/-- The resolved active color a non-winning play leaves behind
(`colorToSet` in the source): the chosen color for a wild-family card when
one is supplied, the card's own color otherwise. -/
theorem performPlayCard_currentColor_eq (seed : Nat → Nat) (s : GameState)
    (playerIndex : Nat) (card : Card) (w : Option Color) (p : Player)
    (hp : s.players.get? playerIndex = some p)
    (hhand : p.hand.length ≠ 1) :
    (performPlayCard seed s playerIndex card w).currentColor =
      match w with
      | some c => if card.color = Color.black then c else card.color
      | none => card.color := by
  unfold performPlayCard
  rw [hp]
  rcases hct : card.type <;> simp [hct, if_neg hhand]

/-- Seat 0 of the wild-without-color scenario: a wild plus one more card. -/
def wildHolder : Player :=
  { id := "p0", name := "Ana", avatar := "", isBot := false,
    hand := [cardWildA, cardRed5], isUno := false, isHost := true }

/-- A two-seat playing state in which seat 0 holds a wild card. -/
def wildState : GameState :=
  { status := GameStatus.playing, players := [wildHolder, seatOnePlayer],
    currentPlayerIndex := 0, direction := 1, drawPile := [cardBlue3],
    discardPile := [cardRedRev], currentColor := Color.red, winner := none,
    turnCount := 2 }

/-- A `PLAY_CARD` action for the wild card with no chosen color, as a
malformed or adversarial client may submit it. -/
def wildNoColorAction : PlayerAction :=
  { actionType := ActionType.PLAY_CARD, cardId := some "k-wild",
    wildColor := none, playerId := "p0" }

/-- C2 counterexample: the action router accepts a wild play without a
chosen color, and the resulting state has the neutral wild color as active
color while the status is still playing - not a fallback chromatic color. -/
theorem wild_without_color_counterexample :
    ((AppTsx.handleRemoteAction (fun _ => 0) wildState [] wildNoColorAction).1.currentColor
       = Color.black) ∧
    ((AppTsx.handleRemoteAction (fun _ => 0) wildState [] wildNoColorAction).1.status
       = GameStatus.playing) := by
  decide

/-- C2 (amended): in a non-winning play, a wild-family card with a supplied
chosen color sets the active color to that color and a chromatic card sets
it to the card's own color, but a play with no chosen color sets the
active color to the card's own color - for a wild-family card the neutral
wild color, so the chromatic-activeColor invariant can be violated while
status is playing. -/
theorem performPlayCard_currentColor_spec (seed : Nat → Nat) (s : GameState)
    (playerIndex : Nat) (card : Card) (w : Option Color) (p : Player)
    (hp : s.players.get? playerIndex = some p)
    (hhand : p.hand.length ≠ 1) :
    (∀ c : Color, w = some c → card.color = Color.black →
      (performPlayCard seed s playerIndex card w).currentColor = c) ∧
    (∀ c : Color, w = some c → card.color ≠ Color.black →
      (performPlayCard seed s playerIndex card w).currentColor = card.color) ∧
    (w = none →
      (performPlayCard seed s playerIndex card w).currentColor = card.color) := by
  have key := performPlayCard_currentColor_eq seed s playerIndex card w p hp hhand
  refine ⟨?_, ?_, ?_⟩
  · intro c hw hblack
    rw [key, hw]
    simp [hblack]
  · intro c hw hblack
    rw [key, hw]
    simp [hblack]
  · intro hw
    rw [key, hw]

/-- Witness for `performPlayCard_currentColor_spec`: seat 0 plays its wild
with chosen color green, and separately with no chosen color. -/
theorem performPlayCard_currentColor_spec_witness :
    ((performPlayCard (fun _ => 0) wildState 0 cardWildA (some Color.green)).currentColor
       = Color.green) ∧
    ((performPlayCard (fun _ => 0) wildState 0 cardWildA none).currentColor
       = cardWildA.color) :=
  ⟨(performPlayCard_currentColor_spec (fun _ => 0) wildState 0 cardWildA
      (some Color.green) wildHolder rfl (by decide)).1 Color.green rfl rfl,
   (performPlayCard_currentColor_spec (fun _ => 0) wildState 0 cardWildA
      none wildHolder rfl (by decide)).2.2 rfl⟩

/-- A non-winning reverse play reduces to an extra-advance in the flipped
direction, with the bypass flag set exactly when the table has two seats. -/
theorem performPlayCard_reverse_eq (seed : Nat → Nat) (s : GameState)
    (i : Nat) (card : Card) (p : Player)
    (hcard : card.type = CType.reverse)
    (hp : s.players.get? i = some p) (hhand : p.hand.length ≠ 1) :
    performPlayCard seed s i card none =
      advanceTurn
        { playCardUpdate s i card card.color with direction := -s.direction }
        i (-s.direction) (s.players.length == 2) := by
  unfold performPlayCard
  rw [hp]
  simp [hcard, if_neg hhand]

/-- A non-winning skip play reduces to an extra-advance in the current
direction. -/
theorem performPlayCard_skip_eq (seed : Nat → Nat) (s : GameState)
    (i : Nat) (card : Card) (p : Player)
    (hcard : card.type = CType.skip)
    (hp : s.players.get? i = some p) (hhand : p.hand.length ≠ 1) :
    performPlayCard seed s i card none =
      advanceTurn (playCardUpdate s i card card.color) i s.direction true := by
  unfold performPlayCard
  rw [hp]
  simp [hcard, if_neg hhand]

/-- C6: a non-winning reverse play flips the direction; in a two-player
match the turn pointer additionally advances a second step in the new
direction, so it returns to the acting player - exactly the effective
advancement of playing a skip in the same state. -/
theorem performPlayCard_reverse_spec (seed : Nat → Nat) (s : GameState)
    (i : Nat) (card skc : Card) (p : Player)
    (hcard : card.type = CType.reverse) (hskc : skc.type = CType.skip)
    (hp : s.players.get? i = some p) (hhand : p.hand.length ≠ 1) :
    (performPlayCard seed s i card none).direction = -s.direction ∧
    (s.players.length = 2 → i < 2 → (s.direction = 1 ∨ s.direction = -1) →
      ((performPlayCard seed s i card none).currentPlayerIndex = i ∧
       (performPlayCard seed s i card none).currentPlayerIndex =
         (performPlayCard seed s i skc none).currentPlayerIndex)) := by
  rw [performPlayCard_reverse_eq seed s i card p hcard hp hhand,
    performPlayCard_skip_eq seed s i skc p hskc hp hhand]
  refine ⟨rfl, ?_⟩
  intro hlen hi hd
  have hd' : -s.direction = 1 ∨ -s.direction = -1 := by
    rcases hd with h | h <;> rw [h] <;> [right; left] <;> rfl
  constructor
  · rw [advanceTurn_currentPlayerIndex]
    simp only [GameState.players, playCardUpdate_players_length]
    simp [hlen, getNext_twice_two i (-s.direction) hi hd']
  · rw [advanceTurn_currentPlayerIndex, advanceTurn_currentPlayerIndex]
    simp only [playCardUpdate_players_length]
    simp [hlen, getNext_twice_two i (-s.direction) hi hd',
      getNext_twice_two i s.direction hi hd]

/-- A two-seat playing state in which seat 0 can play a reverse. -/
def reverseState : GameState :=
  { status := GameStatus.playing,
    players := [{ wildHolder with hand := [cardRedRev, cardRedSkip] },
                seatOnePlayer],
    currentPlayerIndex := 0, direction := 1, drawPile := [cardBlue3],
    discardPile := [cardRed5], currentColor := Color.red, winner := none,
    turnCount := 7 }

/-- Witness for `performPlayCard_reverse_spec`: a concrete two-player
reverse play flips the direction and keeps the turn on seat 0, exactly
like the corresponding skip play. -/
theorem performPlayCard_reverse_spec_witness :
    (performPlayCard (fun _ => 0) reverseState 0 cardRedRev none).direction
        = -reverseState.direction ∧
    (performPlayCard (fun _ => 0) reverseState 0 cardRedRev none).currentPlayerIndex
        = 0 ∧
    (performPlayCard (fun _ => 0) reverseState 0 cardRedRev none).currentPlayerIndex
        = (performPlayCard (fun _ => 0) reverseState 0 cardRedSkip none).currentPlayerIndex := by
  have h := performPlayCard_reverse_spec (fun _ => 0) reverseState 0
    cardRedRev cardRedSkip { wildHolder with hand := [cardRedRev, cardRedSkip] }
    rfl rfl rfl (by decide)
  have h2 := h.2 rfl (by decide) (Or.inl rfl)
  exact ⟨h.1, h2.1, h2.2⟩

/-! ## The action router (claim C3) -/

/-- A `CALL_UNO` submitted for seat 1 while seat 0 holds the turn. -/
def unoFromSeatOne : PlayerAction :=
  { actionType := ActionType.CALL_UNO, cardId := none, wildColor := none,
    playerId := "p1" }

/-- A `DRAW_CARD` submitted for seat 1 while seat 0 holds the turn. -/
def drawFromSeatOne : PlayerAction :=
  { actionType := ActionType.DRAW_CARD, cardId := none, wildColor := none,
    playerId := "p1" }

/-- C3 counterexample: a `CALL_UNO` from the non-current seat 1 is dropped
outright by the PeerJS router (state and chat both unchanged, no UNO
message emitted), while the relay router of `src/unnamed/part_001`
processes it; so the routers do not uniformly process non-current UNO
calls as the claim states. -/
theorem call_uno_noncurrent_counterexample :
    AppTsx.handleRemoteAction (fun _ => 0) winSampleState [] unoFromSeatOne
      = (winSampleState, []) ∧
    Part001.handleRemoteAction (fun _ => 0) winSampleState [] unoFromSeatOne
      = (winSampleState, ["Bia gritou UNO!"]) := by
  decide

/-- C3 (amended): both routers leave state and chat unchanged when the
acting player id is unknown, and when a non-UNO action (such as
`DRAW_CARD`) is submitted by a player other than the current turn holder;
a `CALL_UNO` from a non-current player is processed (UNO system message,
state unchanged) by the relay router of `src/unnamed/part_001` only, while
the PeerJS router of `src/App.tsx` drops every non-current action
including `CALL_UNO`. -/
theorem handleRemoteAction_reject_spec (seed : Nat → Nat) (s : GameState)
    (chat : List String) (action : PlayerAction) :
    (s.players.findIdx? (fun p => p.id = action.playerId) = none →
      AppTsx.handleRemoteAction seed s chat action = (s, chat) ∧
      Part001.handleRemoteAction seed s chat action = (s, chat)) ∧
    (∀ idx, s.players.findIdx? (fun p => p.id = action.playerId) = some idx →
      idx ≠ s.currentPlayerIndex →
      ((action.actionType ≠ ActionType.CALL_UNO →
          AppTsx.handleRemoteAction seed s chat action = (s, chat) ∧
          Part001.handleRemoteAction seed s chat action = (s, chat)) ∧
        AppTsx.handleRemoteAction seed s chat action = (s, chat) ∧
        (action.actionType = ActionType.CALL_UNO →
          Part001.handleRemoteAction seed s chat action =
            (s, chat ++ [unoMessage s idx])))) := by
  constructor
  · intro hnone
    unfold AppTsx.handleRemoteAction Part001.handleRemoteAction
    rw [hnone]
    exact ⟨rfl, rfl⟩
  · intro idx hidx hne
    refine ⟨fun hnu => ⟨?_, ?_⟩, ?_, fun hu => ?_⟩
    · unfold AppTsx.handleRemoteAction
      rw [hidx]
      simp [hne]
    · unfold Part001.handleRemoteAction
      rw [hidx]
      simp [hne, hnu]
    · unfold AppTsx.handleRemoteAction
      rw [hidx]
      simp [hne]
    · unfold Part001.handleRemoteAction
      rw [hidx]
      simp [hne, hu]

/-- Witness for `handleRemoteAction_reject_spec`: the non-current
`DRAW_CARD` is rejected by both routers and the non-current `CALL_UNO` is
processed by the relay router. -/
theorem handleRemoteAction_reject_spec_witness :
    (AppTsx.handleRemoteAction (fun _ => 0) winSampleState [] drawFromSeatOne
        = (winSampleState, []) ∧
     Part001.handleRemoteAction (fun _ => 0) winSampleState [] drawFromSeatOne
        = (winSampleState, [])) ∧
    Part001.handleRemoteAction (fun _ => 0) winSampleState [] unoFromSeatOne
        = (winSampleState, [unoMessage winSampleState 1]) := by
  have h := handleRemoteAction_reject_spec (fun _ => 0) winSampleState []
    drawFromSeatOne
  have h2 := handleRemoteAction_reject_spec (fun _ => 0) winSampleState []
    unoFromSeatOne
  exact ⟨(h.2 1 (by decide) (by decide)).1 (by decide),
         (h2.2 1 (by decide) (by decide)).2.2 rfl⟩

/-! ## Draw-pile reclaim (claim C4) -/

/-- C4: when the draw pile underflows and the discard pile is non-empty,
`performDraw` reclaims the discard pile except its top: the reclaimed draw
pile (shuffled remainder prepended to the old draw pile) has size
old draw + old discard - 1, the discard pile afterwards holds exactly the
unchanged old top, and the cards drawn come off the reclaimed pile; when
both piles are empty a draw of at least one card leaves the whole state
unchanged. -/
theorem performDraw_reclaim_spec (seed : Nat → Nat) (s : GameState)
    (playerIndex count : Nat) :
    (∀ hne : s.discardPile ≠ [],
      s.drawPile.length < count →
      (shuffleDeck seed s.discardPile.dropLast ++ s.drawPile).length
          = s.drawPile.length + s.discardPile.length - 1 ∧
      (performDraw seed s playerIndex count).discardPile
          = [s.discardPile.getLast hne] ∧
      (performDraw seed s playerIndex count).drawPile
          = (shuffleDeck seed s.discardPile.dropLast ++ s.drawPile).drop count) ∧
    (s.drawPile = [] → s.discardPile = [] → 1 ≤ count →
      performDraw seed s playerIndex count = s) := by
  constructor
  · intro hne hlt
    refine ⟨?_, ?_, ?_⟩
    · have h1 : s.discardPile.length ≥ 1 := List.length_pos.mpr hne
      simp only [List.length_append, shuffleDeck_length, List.length_dropLast]
      omega
    · unfold performDraw
      rw [if_pos hlt, dif_neg hne]
      simp [drawFrom]
    · unfold performDraw
      rw [if_pos hlt, dif_neg hne]
      simp [drawFrom]
  · intro hdraw hdisc hcount
    unfold performDraw
    have hlt : s.drawPile.length < count := by
      rw [hdraw]
      simpa using hcount
    rw [if_pos hlt, dif_pos hdisc]

/-- Three more distinct cards so a concrete discard pile can hold eight. -/
def cardGreen7 : Card :=
  { id := "k-green7", type := CType.number, color := Color.green,
    value := some 7, points := 5 }

/-- A yellow 2 used in concrete scenarios. -/
def cardYellow2 : Card :=
  { id := "k-yellow2", type := CType.number, color := Color.yellow,
    value := some 2, points := 5 }

/-- A blue skip used in concrete scenarios. -/
def cardBlueSkip : Card :=
  { id := "k-blueskip", type := CType.skip, color := Color.blue, value := none,
    points := 20 }

/-- An empty-draw-pile state whose discard pile holds eight cards. -/
def reclaimState : GameState :=
  { status := GameStatus.playing, players := [winnerPlayer, seatOnePlayer],
    currentPlayerIndex := 0, direction := 1, drawPile := [],
    discardPile := [cardRed5, cardBlue3, cardRedSkip, cardRedRev, cardWildA,
                    cardGreen7, cardYellow2, cardBlueSkip],
    currentColor := Color.blue, winner := none, turnCount := 9 }

/-- Witness for `performDraw_reclaim_spec`: reclaiming an 8-card discard
pile over an empty draw pile yields a 7-card reclaimed pile and the single
unchanged old top as discard pile. -/
theorem performDraw_reclaim_spec_witness :
    (shuffleDeck (fun _ => 0) reclaimState.discardPile.dropLast
        ++ reclaimState.drawPile).length
      = reclaimState.drawPile.length + reclaimState.discardPile.length - 1 ∧
    (performDraw (fun _ => 0) reclaimState 0 1).discardPile
      = [reclaimState.discardPile.getLast (by decide)] := by
  have h := (performDraw_reclaim_spec (fun _ => 0) reclaimState 0 1).1
    (by decide) (by decide)
  exact ⟨h.1, h.2.1⟩

/-! ## Card conservation (claim C5) -/

/-- The multiset of cards held in the seated hands. -/
def handsCards : List Player → Multiset Card
  | [] => 0
  | p :: ps => (p.hand : Multiset Card) + handsCards ps

/-- The multiset of every card in existence in a state: draw pile, discard
pile, and all hands. -/
def totalCards (s : GameState) : Multiset Card :=
  (s.drawPile : Multiset Card) + (s.discardPile : Multiset Card)
    + handsCards s.players

/-- Updating one seat trades that seat's old hand for the new one inside
the combined hand multiset. -/
theorem handsCards_updateAt : ∀ (l : List Player) (i : Nat)
    (f : Player → Player) (p : Player), l.get? i = some p →
    handsCards (updateAt l i f) + (p.hand : Multiset Card) =
      handsCards l + ((f p).hand : Multiset Card)
  | [], _, _, _, h => by simp at h
  | q :: qs, 0, f, p, h => by
      simp only [List.get?_cons_zero, Option.some.injEq] at h
      subst h
      show ((f q).hand : Multiset Card) + handsCards qs + (q.hand : Multiset Card)
          = (q.hand : Multiset Card) + handsCards qs + ((f q).hand : Multiset Card)
      abel
  | q :: qs, Nat.succ n, f, p, h => by
      simp only [List.get?_cons_succ] at h
      have ih := handsCards_updateAt qs n f p h
      show (q.hand : Multiset Card) + handsCards (updateAt qs n f)
            + (p.hand : Multiset Card)
          = (q.hand : Multiset Card) + handsCards qs + ((f p).hand : Multiset Card)
      rw [add_assoc, ih, ← add_assoc]

/-- The post-reclaim draw step conserves the card multiset. -/
theorem drawFrom_totalCards (s : GameState) (i count : Nat) (p : Player)
    (hp : s.players.get? i = some p) :
    totalCards (drawFrom s i count) = totalCards s := by
  have hup := handsCards_updateAt s.players i
    (fun q => { q with hand := q.hand ++ s.drawPile.take count, isUno := false })
    p hp
  have h2 : ((p.hand ++ s.drawPile.take count : List Card) : Multiset Card)
      = (p.hand : Multiset Card) + (s.drawPile.take count : Multiset Card) :=
    (Multiset.coe_add _ _).symm
  have hu : handsCards (updateAt s.players i
      (fun q => { q with hand := q.hand ++ s.drawPile.take count, isUno := false }))
      = handsCards s.players + (s.drawPile.take count : Multiset Card) := by
    apply add_right_cancel (b := (p.hand : Multiset Card))
    rw [hup]
    dsimp only
    rw [h2]
    abel
  have htd : ((s.drawPile.take count : List Card) : Multiset Card)
      + ((s.drawPile.drop count : List Card) : Multiset Card)
      = (s.drawPile : Multiset Card) := by
    rw [Multiset.coe_add, List.take_append_drop]
  unfold totalCards drawFrom
  dsimp only
  rw [hu, ← htd]
  abel

/-- C5: `performDraw` neither creates, duplicates nor loses a card: for a
seated player index and any count from 1 up to the combined size of the
two piles, the multiset of all cards across the draw pile, the discard
pile and every hand is unchanged. -/
theorem performDraw_totalCards (seed : Nat → Nat) (s : GameState)
    (playerIndex count : Nat) (p : Player)
    (hp : s.players.get? playerIndex = some p)
    (h1 : 1 ≤ count)
    (h2 : count ≤ s.drawPile.length + s.discardPile.length) :
    totalCards (performDraw seed s playerIndex count) = totalCards s := by
  unfold performDraw
  split_ifs with hlt hne
  · rfl
  · have hs' : totalCards
        { s with
          drawPile := shuffleDeck seed s.discardPile.dropLast ++ s.drawPile,
          discardPile := [s.discardPile.getLast hne] } = totalCards s := by
      unfold totalCards
      dsimp only
      have hsh : ((shuffleDeck seed s.discardPile.dropLast : List Card) : Multiset Card)
          = (s.discardPile.dropLast : Multiset Card) :=
        Multiset.coe_eq_coe.mpr (shuffleDeck_perm seed _)
      have hdl : ((s.discardPile.dropLast : List Card) : Multiset Card)
          + (([s.discardPile.getLast hne] : List Card) : Multiset Card)
          = (s.discardPile : Multiset Card) := by
        rw [Multiset.coe_add, List.dropLast_append_getLast hne]
      rw [← Multiset.coe_add, hsh, ← hdl]
      abel
    exact (drawFrom_totalCards
      { s with
        drawPile := shuffleDeck seed s.discardPile.dropLast ++ s.drawPile,
        discardPile := [s.discardPile.getLast hne] }
      playerIndex count p hp).trans hs'
  · exact drawFrom_totalCards s playerIndex count p hp

/-- Witness for `performDraw_totalCards`: the reclaim scenario conserves
the card multiset. -/
theorem performDraw_totalCards_witness :
    totalCards (performDraw (fun _ => 0) reclaimState 0 1)
      = totalCards reclaimState :=
  performDraw_totalCards (fun _ => 0) reclaimState 0 1 winnerPlayer rfl
    (by decide) (by decide)

/-! ## Match-start facts (claim C9) -/

/-- A generated deck always has 108 cards. -/
theorem createDeck_length (seed : Nat → Nat) : (createDeck seed).length = 108 :=
  (createDeck_perm seed).length_eq.trans (by decide)

/-- Dealing seats exactly one player per connected client. -/
theorem dealClients_length : ∀ (deck : List Card) (i : Nat) (cs : List PeerInfo),
    (dealClients deck i cs).1.length = cs.length
  | _, _, [] => rfl
  | deck, i, _ :: cs => by
      simp [dealClients, dealClients_length (deck.drop 7) (i + 1) cs]

/-- Dealing consumes 7 cards per client off the deck front. -/
theorem dealClients_deck : ∀ (deck : List Card) (i : Nat) (cs : List PeerInfo),
    (dealClients deck i cs).2 = deck.drop (7 * cs.length)
  | deck, _, [] => by simp [dealClients]
  | deck, i, _ :: cs => by
      simp only [dealClients]
      rw [dealClients_deck (deck.drop 7) (i + 1) cs, List.drop_drop]
      congr 1
      simp [List.length_cons]
      ring

/-- With enough cards, every dealt client hand has 7 cards. -/
theorem dealClients_hands : ∀ (deck : List Card) (i : Nat) (cs : List PeerInfo),
    7 * cs.length ≤ deck.length →
    ∀ q ∈ (dealClients deck i cs).1, q.hand.length = 7
  | _, _, [], _, q, hq => by simp [dealClients] at hq
  | deck, i, c :: cs, h, q, hq => by
      simp only [List.length_cons] at h
      simp only [dealClients, List.mem_cons] at hq
      rcases hq with rfl | hq
      · simp only [List.length_take]
        omega
      · exact dealClients_hands (deck.drop 7) (i + 1) cs
          (by simp only [List.length_drop]; omega) q hq

/-- Every client-dealt player is human. -/
theorem dealClients_isBot : ∀ (deck : List Card) (i : Nat) (cs : List PeerInfo),
    ∀ q ∈ (dealClients deck i cs).1, q.isBot = false
  | _, _, [], q, hq => by simp [dealClients] at hq
  | deck, i, _ :: cs, q, hq => by
      simp only [dealClients, List.mem_cons] at hq
      rcases hq with rfl | hq
      · rfl
      · exact dealClients_isBot (deck.drop 7) (i + 1) cs q hq

/-- Bot dealing seats exactly the requested number of bots. -/
theorem dealBots_length : ∀ (deck : List Card) (base i n : Nat),
    (dealBots deck base i n).1.length = n
  | _, _, _, 0 => rfl
  | deck, base, i, Nat.succ n => by
      simp [dealBots, dealBots_length (deck.drop 7) base (i + 1) n]

/-- Bot dealing consumes 7 cards per bot off the deck front. -/
theorem dealBots_deck : ∀ (deck : List Card) (base i n : Nat),
    (dealBots deck base i n).2 = deck.drop (7 * n)
  | deck, _, _, 0 => by simp [dealBots]
  | deck, base, i, Nat.succ n => by
      simp only [dealBots]
      rw [dealBots_deck (deck.drop 7) base (i + 1) n, List.drop_drop]
      congr 1
      omega

/-- With enough cards, every bot hand has 7 cards. -/
theorem dealBots_hands : ∀ (deck : List Card) (base i n : Nat),
    7 * n ≤ deck.length →
    ∀ q ∈ (dealBots deck base i n).1, q.hand.length = 7
  | _, _, _, 0, _, q, hq => by simp [dealBots] at hq
  | deck, base, i, Nat.succ n, h, q, hq => by
      simp only [dealBots, List.mem_cons] at hq
      rcases hq with rfl | hq
      · simp only [List.length_take]
        omega
      · exact dealBots_hands (deck.drop 7) base (i + 1) n
          (by simp only [List.length_drop]; omega) q hq

/-- Every bot-dealt player is a bot. -/
theorem dealBots_isBot : ∀ (deck : List Card) (base i n : Nat),
    ∀ q ∈ (dealBots deck base i n).1, q.isBot = true
  | _, _, _, 0, q, hq => by simp [dealBots] at hq
  | deck, base, i, Nat.succ n, q, hq => by
      simp only [dealBots, List.mem_cons] at hq
      rcases hq with rfl | hq
      · rfl
      · exact dealBots_isBot (deck.drop 7) base (i + 1) n q hq

/-- C9: `startGameHost` deals 7 cards to every seated player - host first,
then connected clients, then bots filling up to the mode's seat count
(2, 4 or 5) - flips one card as the sole discard, resolves the active
color to the fixed default red when the flip is a wild, and sets turn
index 0, direction +1, status playing, turn counter 1; the draw pile then
holds 108 - 7 x seats - 1 cards, in particular 79 with 4 seats. -/
theorem startGameHost_spec (seed : Nat → Nat) (myPlayerId playerName : String)
    (peers : List PeerInfo) (mode : GameMode)
    (hfit : 7 * max (totalSlots mode)
        (1 + (peers.filter fun p => p.hasConn).length) + 1 ≤ 108) :
    (startGameHost seed myPlayerId playerName peers mode).status
        = GameStatus.playing ∧
    (startGameHost seed myPlayerId playerName peers mode).currentPlayerIndex
        = 0 ∧
    (startGameHost seed myPlayerId playerName peers mode).direction = 1 ∧
    (startGameHost seed myPlayerId playerName peers mode).turnCount = 1 ∧
    (startGameHost seed myPlayerId playerName peers mode).winner = none ∧
    (startGameHost seed myPlayerId playerName peers mode).players.length
        = max (totalSlots mode) (1 + (peers.filter fun p => p.hasConn).length) ∧
    (∀ q ∈ (startGameHost seed myPlayerId playerName peers mode).players,
        q.hand.length = 7) ∧
    (∀ q ∈ (startGameHost seed myPlayerId playerName peers mode).players.take
        (1 + (peers.filter fun p => p.hasConn).length), q.isBot = false) ∧
    (∀ q ∈ (startGameHost seed myPlayerId playerName peers mode).players.drop
        (1 + (peers.filter fun p => p.hasConn).length), q.isBot = true) ∧
    (∃ f : Card,
      (startGameHost seed myPlayerId playerName peers mode).discardPile = [f] ∧
      (startGameHost seed myPlayerId playerName peers mode).currentColor
          = (if f.color = Color.black then Color.red else f.color)) ∧
    (startGameHost seed myPlayerId playerName peers mode).drawPile.length
        = 108 - (7 * (startGameHost seed myPlayerId playerName peers mode).players.length + 1) ∧
    ((startGameHost seed myPlayerId playerName peers mode).players.length = 4 →
      (startGameHost seed myPlayerId playerName peers mode).drawPile.length = 79) := by
  have hdeck : (createDeck seed).length = 108 := createDeck_length seed
  have hplen : (startGameHost seed myPlayerId playerName peers mode).players.length
      = max (totalSlots mode) (1 + (peers.filter fun p => p.hasConn).length) := by
    simp only [startGameHost, List.length_append, List.length_cons,
      dealClients_length, dealBots_length]
    omega
  have hdlen : (startGameHost seed myPlayerId playerName peers mode).drawPile.length
      = 108 - (7 * (startGameHost seed myPlayerId playerName peers mode).players.length + 1) := by
    rw [hplen]
    simp only [startGameHost, List.length_tail, dealBots_deck, dealClients_deck,
      List.length_drop, List.length_cons, dealClients_length]
    omega
  refine ⟨rfl, rfl, rfl, rfl, rfl, hplen, ?_, ?_, ?_, ⟨_, rfl, rfl⟩, hdlen, ?_⟩
  · intro q hq
    simp only [startGameHost, List.mem_append, List.mem_cons] at hq
    rcases hq with (rfl | hcq) | hbq
    · simp only [List.length_take]
      omega
    · refine dealClients_hands _ _ _ ?_ q hcq
      simp only [List.length_drop]
      omega
    · refine dealBots_hands _ _ _ _ ?_ q hbq
      simp only [dealClients_deck, List.drop_drop, List.length_drop,
        List.length_cons, dealClients_length]
      omega
  · intro q hq
    simp only [startGameHost] at hq
    rw [List.take_left'
      (by simp only [List.length_cons, dealClients_length]; omega)] at hq
    rcases List.mem_cons.mp hq with rfl | hcq
    · rfl
    · exact dealClients_isBot _ _ _ q hcq
  · intro q hq
    simp only [startGameHost] at hq
    rw [List.drop_left'
      (by simp only [List.length_cons, dealClients_length]; omega)] at hq
    exact dealBots_isBot _ _ _ _ q hq
  · intro h4
    rw [hdlen, h4]

/-- The host's own lobby entry (no connection object). -/
def hostPeer0 : PeerInfo := { id := "h0", name := "Ana", hasConn := false }

/-- A connected client's lobby entry. -/
def clientPeer1 : PeerInfo := { id := "c1", name := "Bia", hasConn := true }

/-- Witness for `startGameHost_spec`: one host and one client in `1v3`
mode seat 4 players and leave 108 - 28 - 1 = 79 cards in the draw pile. -/
theorem startGameHost_spec_witness :
    (startGameHost (fun _ => 0) "h0" "Ana" [hostPeer0, clientPeer1]
        GameMode.m1v3).players.length = 4 ∧
    (startGameHost (fun _ => 0) "h0" "Ana" [hostPeer0, clientPeer1]
        GameMode.m1v3).drawPile.length = 79 ∧
    (startGameHost (fun _ => 0) "h0" "Ana" [hostPeer0, clientPeer1]
        GameMode.m1v3).status = GameStatus.playing := by
  have h := startGameHost_spec (fun _ => 0) "h0" "Ana"
    [hostPeer0, clientPeer1] GameMode.m1v3 (by decide)
  have hp4 : (startGameHost (fun _ => 0) "h0" "Ana" [hostPeer0, clientPeer1]
      GameMode.m1v3).players.length = 4 :=
    h.2.2.2.2.2.1.trans (by decide)
  exact ⟨hp4, h.2.2.2.2.2.2.2.2.2.2.2 hp4, h.1⟩

/-- Witness for `createDeck_composition` at a concrete seed: 108 cards and
exactly two red skips. -/
theorem createDeck_composition_witness :
    (createDeck (fun _ => 0)).length = 108 ∧
    ((createDeck (fun _ => 0)).countP fun k =>
      decide (k.color = Color.red ∧ k.type = CType.skip)) = 2 := by
  have h := createDeck_composition (fun _ => 0)
  exact ⟨h.1, (h.2.1 Color.red (by decide)).2.2.1⟩

/-- Witness for `isCardValid_spec`: a wild is legal on a red 5, and a red 5
is legal on itself. -/
theorem isCardValid_spec_witness :
    isCardValid cardWildA cardRed5 Color.red = true ∧
    isCardValid cardRed5 cardRed5 Color.blue = true :=
  ⟨(isCardValid_spec cardWildA cardRed5 Color.red).1 rfl,
   (isCardValid_spec cardRed5 cardRed5 Color.blue).2.2⟩
